import Mathlib

/-!
Verification of the `influxd upgrade` command (`src/cmd/influxd/upgrade/upgrade.go`).

The Go file is shallowly embedded: the pure URL derivation (`configV1.dbURL`) becomes a
pure function; stateful code (`validatePaths`, `newInfluxDBv2`, `runUpgradeE`) becomes
explicit state passing over a read-only filesystem snapshot and an environment recording
the outcome of each external call (bolt open, schema migration, onboarding, database and
user migration, file removals). Mutation of the global `options` variable is modelled by
threading `optionsV1`/`optionsV2` values and returning the final ones; observable side
effects (file deletions, logged cleanup errors, the final warning, the deferred close)
are collected in a `RunEffects` record.
-/

/-- Result of a successful `os.Stat`: a plain file, or a directory carrying the number of
entries that `ioutil.ReadDir` would list for it. -/
inductive FileInfo where
  | file : FileInfo
  | dir (entries : Nat) : FileInfo
deriving DecidableEq

def FileInfo.isDir : FileInfo → Bool
  | .file => false
  | .dir _ => true

/-- A read-only snapshot of the filesystem: `none` means `os.Stat` fails (path absent).
`validatePaths` only ever calls `os.Stat` and `ioutil.ReadDir`, so a read-only snapshot
suffices for it. -/
abbrev FS := String → Option FileInfo

def statExists (fs : FS) (p : String) : Bool := (fs p).isSome

def statIsDir (fs : FS) (p : String) : Bool :=
  match fs p with
  | some fi => fi.isDir
  | none => false

def statNonEmptyDir (fs : FS) (p : String) : Bool :=
  match fs p with
  | some (.dir n) => decide (0 < n)
  | _ => false

/-- Character-list core of `strings.HasPrefix`. -/
def charListBeginsWith : List Char → List Char → Bool
  | [], _ => true
  | _ :: _, [] => false
  | p :: ps, c :: cs => if p = c then charListBeginsWith ps cs else false

/-- `strings.HasPrefix s p`: `s` begins with `p`. -/
def strStartsWith (s p : String) : Bool := charListBeginsWith p.data s.data

/-- Models `filepath.Join` on the already-clean, non-empty path components this command
joins. -/
def pathJoin (a b : String) : String :=
  if a = "" then b else a ++ "/" ++ b

/-- `meta` section of the simplified 1.x config. -/
structure ConfigMeta where
  Dir : String
deriving DecidableEq

/-- `data` section of the simplified 1.x config. -/
structure ConfigData where
  Dir : String
  WALDir : String
deriving DecidableEq

/-- `http` section of the simplified 1.x config. -/
structure ConfigHttp where
  BindAddress : String
  HttpsEnabled : Bool
  AuthEnabled : Bool
deriving DecidableEq

/-- Simplified 1.x config (`configV1`). -/
structure configV1 where
  Meta : ConfigMeta
  Data : ConfigData
  Http : ConfigHttp
deriving DecidableEq

/-- Scheme chosen by `configV1.dbURL`: `https` when `Http.HttpsEnabled`, else `http`. -/
def configV1.dbURLScheme (c : configV1) : String :=
  if c.Http.HttpsEnabled then "https" else "http"

/-- Host chosen by `configV1.dbURL`: the bind address (defaulted to `:8086` when empty),
prefixed with `localhost` when it is of the port-only `:port` form. -/
def configV1.dbURLHost (c : configV1) : String :=
  let address := if c.Http.BindAddress = "" then ":8086" else c.Http.BindAddress
  if strStartsWith address ":" then "localhost" ++ address else address

/-- `configV1.dbURL`: the `url.URL` built from scheme and host, rendered by
`url.String()` as `scheme://host`. -/
def configV1.dbURL (c : configV1) : String :=
  c.dbURLScheme ++ "://" ++ c.dbURLHost

/-- Source-side options (`optionsV1`). -/
structure optionsV1 where
  metaDir : String
  walDir : String
  dataDir : String
  dbURL : String
  dbDir : String
  configFile : String
deriving DecidableEq

/-- `optionsV1.populateDirs` sets values for expected sub-directories of `dbDir`. -/
def optionsV1.populateDirs (o : optionsV1) : optionsV1 :=
  { o with
    metaDir := pathJoin o.dbDir "meta"
    dataDir := pathJoin o.dbDir "data"
    walDir := pathJoin o.dbDir "wal" }

/-- Target-side options (`optionsV2`); `influxdb.ID` values are modelled as `Nat`. -/
structure optionsV2 where
  boltPath : String
  cliConfigsPath : String
  enginePath : String
  cqPath : String
  userName : String
  password : String
  orgName : String
  bucket : String
  orgID : Nat
  userID : Nat
  token : String
  retention : String
deriving DecidableEq

/-- The errors `validatePaths` can return, each carrying the offending path. -/
inductive VErr where
  | dbDirNotExist (path : String)
  | dbDirNotDir (path : String)
  | metaDbNotExist (path : String)
  | configFileNotExist (path : String)
  | v2ConfigExists (path : String)
  | boltPathExists (path : String)
  | enginePathNotDir (path : String)
  | engineDirNotEmpty (path : String)
  | cliConfigsPathExists (path : String)
  | cqPathExists (path : String)
deriving DecidableEq

/-- The offending path carried by a `validatePaths` error. -/
def VErr.path : VErr → String
  | .dbDirNotExist p => p
  | .dbDirNotDir p => p
  | .metaDbNotExist p => p
  | .configFileNotExist p => p
  | .v2ConfigExists p => p
  | .boltPathExists p => p
  | .enginePathNotDir p => p
  | .engineDirNotEmpty p => p
  | .cliConfigsPathExists p => p
  | .cqPathExists p => p

/-- The message text produced by `fmt.Errorf` for each `validatePaths` error. -/
def VErr.message : VErr → String
  | .dbDirNotExist p => "1.x DB dir \x27" ++ p ++ "\x27 does not exist"
  | .dbDirNotDir p => "1.x DB dir \x27" ++ p ++ "\x27 is not a directory"
  | .metaDbNotExist p => "1.x meta.db \x27" ++ p ++ "\x27 does not exist"
  | .configFileNotExist p => "1.x config file \x27" ++ p ++ "\x27 does not exist"
  | .v2ConfigExists p =>
      "file present at target path for upgraded 2.x config file \x27" ++ p ++ "\x27"
  | .boltPathExists p =>
      "file present at target path for upgraded 2.x bolt DB: \x27" ++ p ++ "\x27"
  | .enginePathNotDir p => "upgraded 2.x engine path \x27" ++ p ++ "\x27 is not a directory"
  | .engineDirNotEmpty p => "upgraded 2.x engine directory \x27" ++ p ++ "\x27 must be empty"
  | .cliConfigsPathExists p => "file present at target path for 2.x CLI configs \x27" ++ p ++ "\x27"
  | .cqPathExists p =>
      "file present at target path for exported continuous queries \x27" ++ p ++ "\x27"

/-- `validatePaths` ensures that all filesystem paths provided as input are usable by the
upgrade command. `translateV1ConfigPath` lives in another file of the repository; per the
spec it maps a legacy config path to the path where its translated 2.x counterpart would
be written, so it is passed in as a function. The Go function takes `*optionsV1` and
`*optionsV2`; the possibly-mutated values are returned alongside the error. -/
def validatePaths (fs : FS) (translateV1ConfigPath : String → String)
    (sourceOpts : optionsV1) (targetOpts : optionsV2) :
    Option VErr × optionsV1 × optionsV2 :=
  match fs sourceOpts.dbDir with
  | none => (some (.dbDirNotExist sourceOpts.dbDir), sourceOpts, targetOpts)
  | some fi =>
    if fi.isDir = false then
      (some (.dbDirNotDir sourceOpts.dbDir), sourceOpts, targetOpts)
    else
      let sourceOpts := sourceOpts.populateDirs
      let metaDb := pathJoin sourceOpts.metaDir "meta.db"
      if (fs metaDb).isNone then
        (some (.metaDbNotExist metaDb), sourceOpts, targetOpts)
      else
        let cfgErr : Option VErr :=
          if sourceOpts.configFile = "" then none
          else if (fs sourceOpts.configFile).isNone then
            some (.configFileNotExist sourceOpts.configFile)
          else
            let v2Config := translateV1ConfigPath sourceOpts.configFile
            if (fs v2Config).isSome then some (.v2ConfigExists v2Config) else none
        match cfgErr with
        | some e => (some e, sourceOpts, targetOpts)
        | none =>
          if (fs targetOpts.boltPath).isSome then
            (some (.boltPathExists targetOpts.boltPath), sourceOpts, targetOpts)
          else
            let engErr : Option VErr :=
              match fs targetOpts.enginePath with
              | some .file => some (.enginePathNotDir targetOpts.enginePath)
              | some (.dir n) =>
                  if 0 < n then some (.engineDirNotEmpty targetOpts.enginePath) else none
              | none => none
            match engErr with
            | some e => (some e, sourceOpts, targetOpts)
            | none =>
              if (fs targetOpts.cliConfigsPath).isSome then
                (some (.cliConfigsPathExists targetOpts.cliConfigsPath), sourceOpts, targetOpts)
              else if (fs targetOpts.cqPath).isSome then
                (some (.cqPathExists targetOpts.cqPath), sourceOpts, targetOpts)
              else
                (none, sourceOpts, targetOpts)

/-- Written from the spec of PathValidator (§4.1): an ordered list of checks, each paired
with the error it raises; the first violated check determines the outcome. -/
def specChecks (fs : FS) (translateV1ConfigPath : String → String)
    (src : optionsV1) (tgt : optionsV2) : List (Bool × VErr) :=
  let metaDb := pathJoin (pathJoin src.dbDir "meta") "meta.db"
  let v2Config := translateV1ConfigPath src.configFile
  [ (!statExists fs src.dbDir, .dbDirNotExist src.dbDir),
    (!statIsDir fs src.dbDir, .dbDirNotDir src.dbDir),
    (!statExists fs metaDb, .metaDbNotExist metaDb),
    (!(src.configFile == "") && !statExists fs src.configFile,
      .configFileNotExist src.configFile),
    (!(src.configFile == "") && statExists fs v2Config, .v2ConfigExists v2Config),
    (statExists fs tgt.boltPath, .boltPathExists tgt.boltPath),
    (statExists fs tgt.enginePath && !statIsDir fs tgt.enginePath,
      .enginePathNotDir tgt.enginePath),
    (statNonEmptyDir fs tgt.enginePath, .engineDirNotEmpty tgt.enginePath),
    (statExists fs tgt.cliConfigsPath, .cliConfigsPathExists tgt.cliConfigsPath),
    (statExists fs tgt.cqPath, .cqPathExists tgt.cqPath) ]

/-- Written from the spec of PathValidator (§4.1): fail fast on the first violated check. -/
def specValidate (fs : FS) (translateV1ConfigPath : String → String)
    (src : optionsV1) (tgt : optionsV2) : Option VErr :=
  ((specChecks fs translateV1ConfigPath src tgt).find? (fun c => c.1)).map (fun c => c.2)

/-- Outcomes of the fallible external calls inside `newInfluxDBv2`, in source order:
`boltClient.Open`, `migration.NewMigrator`, `migrator.Up`, `meta.Open`,
`authorization.NewStore`, `authv1.NewStore`. -/
structure BootEnv where
  boltOpen : Except String Unit
  newMigrator : Except String Unit
  migratorUp : Except String Unit
  metaOpen : Except String Unit
  authStoreV2 : Except String Unit
  authStoreV1 : Except String Unit

/-- The closable handles `newInfluxDBv2` acquires; a `true` field means the handle is
open when the function returns (the Go function contains no close call on any path). -/
structure Handles where
  boltClientOpen : Bool
  metaClientOpen : Bool
deriving DecidableEq

/-- `newInfluxDBv2`: acquires the bolt client, builds the KV store over the same DB, runs
the schema migrator, opens the meta client, builds tenant/auth/onboarding services. Each
fallible step returns the error as-is; the handle state at return is reported alongside. -/
def newInfluxDBv2 (env : BootEnv) : Except String Unit × Handles :=
  let h : Handles := { boltClientOpen := false, metaClientOpen := false }
  match env.boltOpen with
  | .error e => (.error e, h)
  | .ok _ =>
    let h := { h with boltClientOpen := true }
    match env.newMigrator with
    | .error e => (.error e, h)
    | .ok _ =>
      match env.migratorUp with
      | .error e => (.error e, h)
      | .ok _ =>
        match env.metaOpen with
        | .error e => (.error e, h)
        | .ok _ =>
          let h := { h with metaClientOpen := true }
          match env.authStoreV2 with
          | .error e => (.error e, h)
          | .ok _ =>
            match env.authStoreV1 with
            | .error e => (.error e, h)
            | .ok _ => (.ok (), h)

/-- Result of `setupAdmin`: the onboarding results consumed by `runUpgradeE`
(`or.Org.ID`, `or.User.ID`, `or.Auth.Token`). -/
structure OnboardingResult where
  orgID : Nat
  userID : Nat
  token : String
deriving DecidableEq

/-- Outcomes of the external calls made by `runUpgradeE`, in source order. `removeBolt`
and `removeAllEngine` are the outcomes of `os.Remove(boltPath)` and
`os.RemoveAll(enginePath)` in the rollback branch (`some e` = the deletion failed). -/
structure RunEnv where
  fs : FS
  translateV1ConfigPath : String → String
  logLevelValid : Bool
  logBuild : Except String Unit
  upgradeConfig : Except String configV1
  newInfluxDBv1 : Except String Unit
  boot : BootEnv
  isOnboarding : Except String Bool
  onboardingRequest : Except String Unit
  setupAdmin : Except String OnboardingResult
  saveLocalConfig : Except String Unit
  upgradeDatabases : Except String Unit
  removeBolt : Option String
  removeAllEngine : Option String
  upgradeUsers : Except String Nat

/-- Observable side effects of one `runUpgradeE` run. -/
structure RunEffects where
  closedV2 : Bool
  removeBoltCalled : Bool
  removeEngineCalled : Bool
  loggedRemoveBoltError : Bool
  loggedRemoveEngineError : Bool
  warnedUnenforcedAuth : Bool
deriving DecidableEq

def RunEffects.init : RunEffects :=
  { closedV2 := false, removeBoltCalled := false, removeEngineCalled := false,
    loggedRemoveBoltError := false, loggedRemoveEngineError := false,
    warnedUnenforcedAuth := false }

/-- `runUpgradeE`: the top-level pipeline. The global `options.source`/`options.target`
are threaded as values and the final ones returned; the one-time flux initialization and
logger construction details are outside the claims and folded into
`logLevelValid`/`logBuild`. The `defer v2.close()` registered after a successful
`newInfluxDBv2` is recorded as `closedV2` on every later exit. -/
def runUpgradeE (env : RunEnv) (source : optionsV1) (target : optionsV2) :
    Except String Unit × optionsV1 × optionsV2 × RunEffects :=
  let eff := RunEffects.init
  if env.logLevelValid = false then
    (.error "unknown log level; supported levels are debug, info, warn and error",
      source, target, eff)
  else
    match env.logBuild with
    | .error e => (.error e, source, target, eff)
    | .ok _ =>
      match validatePaths env.fs env.translateV1ConfigPath source target with
      | (some e, source, target) => (.error e.message, source, target, eff)
      | (none, source, target) =>
        let cfgStep : Except String (optionsV1 × Bool) :=
          if source.configFile = "" then .ok (source, false)
          else
            match env.upgradeConfig with
            | .error e => .error e
            | .ok v1Config =>
                .ok ({ source with
                        metaDir := v1Config.Meta.Dir
                        dataDir := v1Config.Data.Dir
                        walDir := v1Config.Data.WALDir
                        dbURL := v1Config.dbURL },
                     v1Config.Http.AuthEnabled)
        match cfgStep with
        | .error e => (.error e, source, target, eff)
        | .ok (source, authEnabled) =>
          match env.newInfluxDBv1 with
          | .error e => (.error e, source, target, eff)
          | .ok _ =>
            match (newInfluxDBv2 env.boot).1 with
            | .error e => (.error e, source, target, eff)
            | .ok _ =>
              let eff := { eff with closedV2 := true }
              match env.isOnboarding with
              | .error e => (.error e, source, target, eff)
              | .ok canOnboard =>
                if canOnboard = false then
                  (.error "InfluxDB has been already set up", source, target, eff)
                else
                  match env.onboardingRequest with
                  | .error e => (.error e, source, target, eff)
                  | .ok _ =>
                    match env.setupAdmin with
                    | .error e => (.error e, source, target, eff)
                    | .ok obRes =>
                      let target := { target with
                        orgID := obRes.orgID, userID := obRes.userID, token := obRes.token }
                      match env.saveLocalConfig with
                      | .error e => (.error e, source, target, eff)
                      | .ok _ =>
                        match env.upgradeDatabases with
                        | .error e =>
                          let eff := { eff with
                            removeBoltCalled := true
                            loggedRemoveBoltError := env.removeBolt.isSome
                            removeEngineCalled := true
                            loggedRemoveEngineError := env.removeAllEngine.isSome }
                          (.error e, source, target, eff)
                        | .ok _ =>
                          match env.upgradeUsers with
                          | .error e => (.error e, source, target, eff)
                          | .ok usersUpgraded =>
                            let eff :=
                              if 0 < usersUpgraded ∧ authEnabled = false then
                                { eff with warnedUnenforcedAuth := true }
                              else eff
                            (.ok (), source, target, eff)

def exOk {α : Type} : Except String α → Bool
  | .ok _ => true
  | .error _ => false

def exOkTrue : Except String Bool → Bool
  | .ok b => b
  | .error _ => false

def postValidateSource (env : RunEnv) (source : optionsV1) (target : optionsV2) : optionsV1 :=
  (validatePaths env.fs env.translateV1ConfigPath source target).2.1

def validateOk (env : RunEnv) (source : optionsV1) (target : optionsV2) : Bool :=
  (validatePaths env.fs env.translateV1ConfigPath source target).1.isNone

def cfgStepOk (env : RunEnv) (source : optionsV1) (target : optionsV2) : Bool :=
  (postValidateSource env source target).configFile == "" || exOk env.upgradeConfig

def bootstrapSucceeded (env : RunEnv) (source : optionsV1) (target : optionsV2) : Bool :=
  env.logLevelValid && exOk env.logBuild && validateOk env source target &&
  cfgStepOk env source target && exOk env.newInfluxDBv1 && exOk (newInfluxDBv2 env.boot).1

def reachedDatabasePhase (env : RunEnv) (source : optionsV1) (target : optionsV2) : Bool :=
  bootstrapSucceeded env source target && exOkTrue env.isOnboarding &&
  exOk env.onboardingRequest && exOk env.setupAdmin && exOk env.saveLocalConfig

def dbMigrationFailed (env : RunEnv) (source : optionsV1) (target : optionsV2) : Bool :=
  reachedDatabasePhase env source target && !exOk env.upgradeDatabases

def runSucceeded (env : RunEnv) (source : optionsV1) (target : optionsV2) : Bool :=
  reachedDatabasePhase env source target && exOk env.upgradeDatabases && exOk env.upgradeUsers

def runAuthEnabled (env : RunEnv) (source : optionsV1) (target : optionsV2) : Bool :=
  if (postValidateSource env source target).configFile = "" then false
  else
    match env.upgradeConfig with
    | .ok c => c.Http.AuthEnabled
    | .error _ => false

def usersUpgradedCount (env : RunEnv) : Nat :=
  match env.upgradeUsers with
  | .ok n => n
  | .error _ => 0

def reachedSetupAdmin (env : RunEnv) (source : optionsV1) (target : optionsV2) : Bool :=
  bootstrapSucceeded env source target && exOkTrue env.isOnboarding &&
  exOk env.onboardingRequest && exOk env.setupAdmin

def postOnboardTarget (env : RunEnv) (target : optionsV2) : optionsV2 :=
  match env.setupAdmin with
  | .ok r => { target with orgID := r.orgID, userID := r.userID, token := r.token }
  | .error _ => target

def postConfigSource (env : RunEnv) (source : optionsV1) (target : optionsV2) : optionsV1 :=
  let s := postValidateSource env source target
  if s.configFile = "" then s
  else
    match env.upgradeConfig with
    | .ok c => { s with metaDir := c.Meta.Dir, dataDir := c.Data.Dir,
                        walDir := c.Data.WALDir, dbURL := c.dbURL }
    | .error _ => s

/-- The literal text of a `validatePaths` message before the offending path. -/
def VErr.msgPre : VErr → String
  | .dbDirNotExist _ => "1.x DB dir \x27"
  | .dbDirNotDir _ => "1.x DB dir \x27"
  | .metaDbNotExist _ => "1.x meta.db \x27"
  | .configFileNotExist _ => "1.x config file \x27"
  | .v2ConfigExists _ => "file present at target path for upgraded 2.x config file \x27"
  | .boltPathExists _ => "file present at target path for upgraded 2.x bolt DB: \x27"
  | .enginePathNotDir _ => "upgraded 2.x engine path \x27"
  | .engineDirNotEmpty _ => "upgraded 2.x engine directory \x27"
  | .cliConfigsPathExists _ => "file present at target path for 2.x CLI configs \x27"
  | .cqPathExists _ => "file present at target path for exported continuous queries \x27"

/-- The literal text of a `validatePaths` message after the offending path. -/
def VErr.msgSuf : VErr → String
  | .dbDirNotExist _ => "\x27 does not exist"
  | .dbDirNotDir _ => "\x27 is not a directory"
  | .metaDbNotExist _ => "\x27 does not exist"
  | .configFileNotExist _ => "\x27 does not exist"
  | .v2ConfigExists _ => "\x27"
  | .boltPathExists _ => "\x27"
  | .enginePathNotDir _ => "\x27 is not a directory"
  | .engineDirNotEmpty _ => "\x27 must be empty"
  | .cliConfigsPathExists _ => "\x27"
  | .cqPathExists _ => "\x27"

/-- A 1.x config whose http bind address is empty. -/
def cfgEmptyBind : configV1 :=
  { Meta := { Dir := "/v1/meta" }
    Data := { Dir := "/v1/data", WALDir := "/v1/wal" }
    Http := { BindAddress := "", HttpsEnabled := false, AuthEnabled := false } }

/-- A 1.x config whose http bind address is of the port-only `:port` form. -/
def cfgPortOnly : configV1 :=
  { Meta := { Dir := "/v1/meta" }
    Data := { Dir := "/v1/data", WALDir := "/v1/wal" }
    Http := { BindAddress := ":9999", HttpsEnabled := true, AuthEnabled := true } }

/-- A 1.x config whose http bind address carries an explicit host. -/
def cfgHostAddr : configV1 :=
  { Meta := { Dir := "/v1/meta" }
    Data := { Dir := "/v1/data", WALDir := "/v1/wal" }
    Http := { BindAddress := "db.example.com:8086", HttpsEnabled := false, AuthEnabled := true } }

/-- A filesystem snapshot on which `validatePaths` passes: the 1.x root is a directory,
its meta.db exists, and every target path is absent. -/
def fsGood : FS := fun p =>
  if p = "/v1" then some (.dir 3)
  else if p = "/v1/meta/meta.db" then some .file
  else none

/-- A stand-in for the repository function translating a 1.x config path to its 2.x
counterpart path. -/
def trGood : String → String := fun p => p ++ ".toml"

/-- Source options referring to `fsGood`; no 1.x config file is supplied. -/
def srcGood : optionsV1 :=
  { metaDir := "", walDir := "", dataDir := "", dbURL := "", dbDir := "/v1", configFile := "" }

/-- Target options whose paths are all absent in `fsGood`. -/
def tgtGood : optionsV2 :=
  { boltPath := "/v2/influxd.bolt", cliConfigsPath := "/v2/configs",
    enginePath := "/v2/engine", cqPath := "/v2/cq.txt", userName := "admin",
    password := "password123", orgName := "org", bucket := "bucket", orgID := 0,
    userID := 0, token := "", retention := "" }

/-- A bootstrap environment in which every acquisition step succeeds. -/
def bootGood : BootEnv :=
  { boltOpen := .ok (), newMigrator := .ok (), migratorUp := .ok (),
    metaOpen := .ok (), authStoreV2 := .ok (), authStoreV1 := .ok () }

/-- A bootstrap environment in which the bolt client opens but building the schema
migrator fails. -/
def bootMigratorFails : BootEnv :=
  { bootGood with newMigrator := .error "migrator construction failed" }

/-- A run environment in which every phase succeeds: onboarding grants org 1, user 2 and
token TOK, and three users are migrated while 1.x auth is disabled (no config file). -/
def envGood : RunEnv :=
  { fs := fsGood, translateV1ConfigPath := trGood, logLevelValid := true,
    logBuild := .ok (), upgradeConfig := .error "no config file", newInfluxDBv1 := .ok (),
    boot := bootGood, isOnboarding := .ok true, onboardingRequest := .ok (),
    setupAdmin := .ok { orgID := 1, userID := 2, token := "TOK" },
    saveLocalConfig := .ok (), upgradeDatabases := .ok (), removeBolt := none,
    removeAllEngine := none, upgradeUsers := .ok 3 }

/-- `envGood` with a failing database migration whose bolt-file deletion also fails. -/
def envDbFail : RunEnv :=
  { envGood with
    upgradeDatabases := .error "db migration failed",
    removeBolt := some "remove failed" }

set_option maxHeartbeats 2000000 in
theorem runUpgradeE_removeBolt (env : RunEnv) (source : optionsV1) (target : optionsV2) :
    (runUpgradeE env source target).2.2.2.removeBoltCalled = dbMigrationFailed env source target := by
  obtain ⟨fs, tr, llv, lb, uc, n1, boot, iob, obr, sa, slc, ud, rb, re, uu⟩ := env
  unfold runUpgradeE dbMigrationFailed reachedDatabasePhase bootstrapSucceeded validateOk cfgStepOk postValidateSource
  repeat' split <;> (try simp_all [exOk, exOkTrue, RunEffects.init]) <;>
    (try split_ifs at *) <;> (try simp_all [exOk, exOkTrue, RunEffects.init])

set_option maxHeartbeats 2000000 in
theorem runUpgradeE_removeEngine (env : RunEnv) (source : optionsV1) (target : optionsV2) :
    (runUpgradeE env source target).2.2.2.removeEngineCalled = dbMigrationFailed env source target := by
  obtain ⟨fs, tr, llv, lb, uc, n1, boot, iob, obr, sa, slc, ud, rb, re, uu⟩ := env
  unfold runUpgradeE dbMigrationFailed reachedDatabasePhase bootstrapSucceeded validateOk cfgStepOk postValidateSource
  repeat' split <;> (try simp_all [exOk, exOkTrue, RunEffects.init]) <;>
    (try split_ifs at *) <;> (try simp_all [exOk, exOkTrue, RunEffects.init])

set_option maxHeartbeats 2000000 in
theorem runUpgradeE_loggedBolt (env : RunEnv) (source : optionsV1) (target : optionsV2) :
    (runUpgradeE env source target).2.2.2.loggedRemoveBoltError =
      (dbMigrationFailed env source target && env.removeBolt.isSome) := by
  obtain ⟨fs, tr, llv, lb, uc, n1, boot, iob, obr, sa, slc, ud, rb, re, uu⟩ := env
  unfold runUpgradeE dbMigrationFailed reachedDatabasePhase bootstrapSucceeded validateOk cfgStepOk postValidateSource
  repeat' split <;> (try simp_all [exOk, exOkTrue, RunEffects.init]) <;>
    (try split_ifs at *) <;> (try simp_all [exOk, exOkTrue, RunEffects.init])

set_option maxHeartbeats 2000000 in
theorem runUpgradeE_loggedEngine (env : RunEnv) (source : optionsV1) (target : optionsV2) :
    (runUpgradeE env source target).2.2.2.loggedRemoveEngineError =
      (dbMigrationFailed env source target && env.removeAllEngine.isSome) := by
  obtain ⟨fs, tr, llv, lb, uc, n1, boot, iob, obr, sa, slc, ud, rb, re, uu⟩ := env
  unfold runUpgradeE dbMigrationFailed reachedDatabasePhase bootstrapSucceeded validateOk cfgStepOk postValidateSource
  repeat' split <;> (try simp_all [exOk, exOkTrue, RunEffects.init]) <;>
    (try split_ifs at *) <;> (try simp_all [exOk, exOkTrue, RunEffects.init])

set_option maxHeartbeats 2000000 in
theorem runUpgradeE_warned (env : RunEnv) (source : optionsV1) (target : optionsV2) :
    (runUpgradeE env source target).2.2.2.warnedUnenforcedAuth =
      (runSucceeded env source target && decide (0 < usersUpgradedCount env) &&
        !runAuthEnabled env source target) := by
  obtain ⟨fs, tr, llv, lb, uc, n1, boot, iob, obr, sa, slc, ud, rb, re, uu⟩ := env
  unfold runUpgradeE runSucceeded usersUpgradedCount runAuthEnabled reachedDatabasePhase bootstrapSucceeded validateOk cfgStepOk postValidateSource
  repeat' split <;> (try simp_all [exOk, exOkTrue, RunEffects.init]) <;>
    (try split_ifs at *) <;> (try simp_all [exOk, exOkTrue, RunEffects.init])

set_option maxHeartbeats 2000000 in
theorem runUpgradeE_ok (env : RunEnv) (source : optionsV1) (target : optionsV2) :
    ((runUpgradeE env source target).1 = Except.ok ()) = (runSucceeded env source target = true) := by
  obtain ⟨fs, tr, llv, lb, uc, n1, boot, iob, obr, sa, slc, ud, rb, re, uu⟩ := env
  unfold runUpgradeE runSucceeded reachedDatabasePhase bootstrapSucceeded validateOk cfgStepOk postValidateSource
  repeat' split <;> (try simp_all [exOk, exOkTrue, RunEffects.init]) <;>
    (try split_ifs at *) <;> (try simp_all [exOk, exOkTrue, RunEffects.init])

set_option maxHeartbeats 2000000 in
theorem runUpgradeE_dbError (env : RunEnv) (source : optionsV1) (target : optionsV2)
    (e : String) (hdb : env.upgradeDatabases = Except.error e)
    (hreach : reachedDatabasePhase env source target = true) :
    (runUpgradeE env source target).1 = Except.error e := by
  obtain ⟨fs, tr, llv, lb, uc, n1, boot, iob, obr, sa, slc, ud, rb, re, uu⟩ := env
  unfold runUpgradeE at *
  unfold reachedDatabasePhase bootstrapSucceeded validateOk cfgStepOk postValidateSource at hreach
  subst hdb
  repeat' split <;> (try simp_all [exOk, exOkTrue, RunEffects.init]) <;>
    (try split_ifs at *) <;> (try simp_all [exOk, exOkTrue, RunEffects.init]) <;>
    (try (cases uc <;> simp_all [exOk, exOkTrue, RunEffects.init]))

set_option maxHeartbeats 2000000 in
theorem runUpgradeE_closedV2 (env : RunEnv) (source : optionsV1) (target : optionsV2) :
    (runUpgradeE env source target).2.2.2.closedV2 = bootstrapSucceeded env source target := by
  obtain ⟨fs, tr, llv, lb, uc, n1, boot, iob, obr, sa, slc, ud, rb, re, uu⟩ := env
  unfold runUpgradeE bootstrapSucceeded validateOk cfgStepOk postValidateSource
  repeat' split <;> (try simp_all [exOk, exOkTrue, RunEffects.init]) <;>
    (try split_ifs at *) <;> (try simp_all [exOk, exOkTrue, RunEffects.init])

set_option maxHeartbeats 1000000 in
theorem validatePaths_target (fs : FS) (tr : String → String) (s : optionsV1) (t : optionsV2) :
    (validatePaths fs tr s t).2.2 = t := by
  unfold validatePaths
  repeat' split <;> (try rfl) <;> (try simp_all) <;>
    (try split_ifs at *) <;> (try simp_all)

set_option maxHeartbeats 1000000 in
theorem validatePaths_source (fs : FS) (tr : String → String) (s : optionsV1) (t : optionsV2) :
    (validatePaths fs tr s t).2.1 =
      (if statIsDir fs s.dbDir = true then s.populateDirs else s) := by
  unfold validatePaths statIsDir
  repeat' split <;> (try rfl) <;> (try simp_all) <;>
    (try split_ifs at *) <;> (try simp_all)

set_option maxHeartbeats 1000000 in
theorem validatePaths_eq_specValidate (fs : FS) (tr : String → String)
    (s : optionsV1) (t : optionsV2) :
    (validatePaths fs tr s t).1 = specValidate fs tr s t := by
  rcases hdb : fs s.dbDir with _ | fi
  · simp [validatePaths, specValidate, specChecks, statExists, statIsDir, hdb, List.find?]
  rcases fi with _ | n
  · simp [validatePaths, specValidate, specChecks, statExists, statIsDir, hdb, List.find?,
      FileInfo.isDir]
  rcases hmd : fs (pathJoin (pathJoin s.dbDir "meta") "meta.db") with _ | mfi
  · simp [validatePaths, specValidate, specChecks, statExists, statIsDir, hdb, hmd, List.find?,
      FileInfo.isDir, optionsV1.populateDirs]
  by_cases hcf : s.configFile = ""
  case pos =>
    by_cases hbolt : (fs t.boltPath).isSome
    · simp [validatePaths, specValidate, specChecks, statExists, statIsDir, statNonEmptyDir,
        hdb, hmd, hcf, hbolt, List.find?, FileInfo.isDir, optionsV1.populateDirs]
    rcases heng : fs t.enginePath with _ | efi
    · by_cases hcli : (fs t.cliConfigsPath).isSome <;> by_cases hcq : (fs t.cqPath).isSome <;>
        simp [validatePaths, specValidate, specChecks, statExists, statIsDir, statNonEmptyDir,
          hdb, hmd, hcf, hbolt, heng, hcli, hcq, List.find?, FileInfo.isDir,
          optionsV1.populateDirs]
    rcases efi with _ | n
    · simp [validatePaths, specValidate, specChecks, statExists, statIsDir, statNonEmptyDir,
        hdb, hmd, hcf, hbolt, heng, List.find?, FileInfo.isDir, optionsV1.populateDirs]
    by_cases hn : 0 < n
    · simp [validatePaths, specValidate, specChecks, statExists, statIsDir, statNonEmptyDir,
        hdb, hmd, hcf, hbolt, heng, hn, List.find?, FileInfo.isDir, optionsV1.populateDirs]
    · by_cases hcli : (fs t.cliConfigsPath).isSome <;> by_cases hcq : (fs t.cqPath).isSome <;>
        simp [validatePaths, specValidate, specChecks, statExists, statIsDir, statNonEmptyDir,
          hdb, hmd, hcf, hbolt, heng, hn, hcli, hcq, List.find?, FileInfo.isDir,
          optionsV1.populateDirs]
  case neg =>
    have hcfb : (s.configFile == "") = false := by
      simp [hcf]
    by_cases hcfe : (fs s.configFile).isNone
    · simp [validatePaths, specValidate, specChecks, statExists, statIsDir, statNonEmptyDir,
        hdb, hmd, hcf, hcfb, hcfe, List.find?, FileInfo.isDir, optionsV1.populateDirs,
        Option.isNone_iff_eq_none]
    by_cases hv2 : (fs (tr s.configFile)).isSome
    · simp [validatePaths, specValidate, specChecks, statExists, statIsDir, statNonEmptyDir,
        hdb, hmd, hcf, hcfb, hcfe, hv2, List.find?, FileInfo.isDir, optionsV1.populateDirs,
        Option.isNone_iff_eq_none]
    by_cases hbolt : (fs t.boltPath).isSome
    · simp [validatePaths, specValidate, specChecks, statExists, statIsDir, statNonEmptyDir,
        hdb, hmd, hcf, hcfb, hcfe, hv2, hbolt, List.find?, FileInfo.isDir,
        optionsV1.populateDirs, Option.isNone_iff_eq_none]
    rcases heng : fs t.enginePath with _ | efi
    · by_cases hcli : (fs t.cliConfigsPath).isSome <;> by_cases hcq : (fs t.cqPath).isSome <;>
        simp [validatePaths, specValidate, specChecks, statExists, statIsDir, statNonEmptyDir,
          hdb, hmd, hcf, hcfb, hcfe, hv2, hbolt, heng, hcli, hcq, List.find?, FileInfo.isDir,
          optionsV1.populateDirs, Option.isNone_iff_eq_none]
    rcases efi with _ | n
    · simp [validatePaths, specValidate, specChecks, statExists, statIsDir, statNonEmptyDir,
        hdb, hmd, hcf, hcfb, hcfe, hv2, hbolt, heng, List.find?, FileInfo.isDir,
        optionsV1.populateDirs, Option.isNone_iff_eq_none]
    by_cases hn : 0 < n
    · simp [validatePaths, specValidate, specChecks, statExists, statIsDir, statNonEmptyDir,
        hdb, hmd, hcf, hcfb, hcfe, hv2, hbolt, heng, hn, List.find?, FileInfo.isDir,
        optionsV1.populateDirs, Option.isNone_iff_eq_none]
    · by_cases hcli : (fs t.cliConfigsPath).isSome <;> by_cases hcq : (fs t.cqPath).isSome <;>
        simp [validatePaths, specValidate, specChecks, statExists, statIsDir, statNonEmptyDir,
          hdb, hmd, hcf, hcfb, hcfe, hv2, hbolt, heng, hn, hcli, hcq, List.find?,
          FileInfo.isDir, optionsV1.populateDirs, Option.isNone_iff_eq_none]

theorem newInfluxDBv2_boltHandle (benv : BootEnv) :
    (newInfluxDBv2 benv).2.boltClientOpen = exOk benv.boltOpen := by
  obtain ⟨b1, b2, b3, b4, b5, b6⟩ := benv
  unfold newInfluxDBv2
  repeat' split <;> (try rfl) <;> (try simp_all [exOk])

theorem newInfluxDBv2_metaHandle (benv : BootEnv) :
    (newInfluxDBv2 benv).2.metaClientOpen =
      (exOk benv.boltOpen && exOk benv.newMigrator && exOk benv.migratorUp &&
        exOk benv.metaOpen) := by
  obtain ⟨b1, b2, b3, b4, b5, b6⟩ := benv
  unfold newInfluxDBv2
  repeat' split <;> (try rfl) <;> (try simp_all [exOk])

theorem newInfluxDBv2_ok (benv : BootEnv) :
    ((newInfluxDBv2 benv).1 = Except.ok ()) =
      ((exOk benv.boltOpen && exOk benv.newMigrator && exOk benv.migratorUp &&
        exOk benv.metaOpen && exOk benv.authStoreV2 && exOk benv.authStoreV1) = true) := by
  obtain ⟨b1, b2, b3, b4, b5, b6⟩ := benv
  unfold newInfluxDBv2
  repeat' split <;> (try rfl) <;> (try simp_all [exOk])

set_option maxHeartbeats 2000000 in
theorem runUpgradeE_finalSource (env : RunEnv) (source : optionsV1) (target : optionsV2) :
    (runUpgradeE env source target).2.1 =
      (if (env.logLevelValid && exOk env.logBuild) = true then
        (if validateOk env source target = true then postConfigSource env source target
         else postValidateSource env source target)
       else source) := by
  obtain ⟨fs, tr, llv, lb, uc, n1, boot, iob, obr, sa, slc, ud, rb, re, uu⟩ := env
  unfold runUpgradeE postConfigSource validateOk postValidateSource
  repeat' split <;> (try simp_all [exOk, exOkTrue, RunEffects.init]) <;>
    (try split_ifs at *) <;> (try simp_all [exOk, exOkTrue, RunEffects.init]) <;>
    (try (cases uc <;> simp_all [exOk, exOkTrue, RunEffects.init]))

set_option maxHeartbeats 2000000 in
theorem runUpgradeE_finalTarget (env : RunEnv) (source : optionsV1) (target : optionsV2) :
    (runUpgradeE env source target).2.2.1 =
      (if reachedSetupAdmin env source target = true then postOnboardTarget env target
       else target) := by
  obtain ⟨fs, tr, llv, lb, uc, n1, boot, iob, obr, sa, slc, ud, rb, re, uu⟩ := env
  have htgt := validatePaths_target fs tr source target
  unfold runUpgradeE reachedSetupAdmin postOnboardTarget bootstrapSucceeded validateOk cfgStepOk postValidateSource
  repeat' split <;> (try simp_all [exOk, exOkTrue, RunEffects.init]) <;>
    (try split_ifs at *) <;> (try simp_all [exOk, exOkTrue, RunEffects.init]) <;>
    (try (cases uc <;> simp_all [exOk, exOkTrue, RunEffects.init]))

/-- C1 counterexample: when opening the bolt client succeeds and constructing the schema
migrator then fails, `newInfluxDBv2` propagates the error while the bolt handle is still
open — the claimed release of already-acquired handles does not happen. -/
theorem newInfluxDBv2_migrator_failure_leaks_bolt :
    (newInfluxDBv2 bootMigratorFails).1 = Except.error "migrator construction failed" ∧
    (newInfluxDBv2 bootMigratorFails).2.boltClientOpen = true :=
  ⟨rfl, rfl⟩

/-- C1 (amended): on a failed acquisition step of `newInfluxDBv2` the already-acquired
handles are left in their acquired state (the bolt client stays open once opened, the
meta client once opened); the only release is the deferred close in `runUpgradeE`, which
runs exactly when the whole bootstrap call succeeded. -/
theorem newInfluxDBv2_no_release_on_failed_bootstrap :
    (∀ benv : BootEnv,
      (newInfluxDBv2 benv).2.boltClientOpen = exOk benv.boltOpen ∧
      (newInfluxDBv2 benv).2.metaClientOpen =
        (exOk benv.boltOpen && exOk benv.newMigrator && exOk benv.migratorUp &&
          exOk benv.metaOpen)) ∧
    (∀ (env : RunEnv) (source : optionsV1) (target : optionsV2),
      (runUpgradeE env source target).2.2.2.closedV2 = bootstrapSucceeded env source target) :=
  ⟨fun benv => ⟨newInfluxDBv2_boltHandle benv, newInfluxDBv2_metaHandle benv⟩,
    runUpgradeE_closedV2⟩

/-- C2: the bolt-file deletion and the recursive engine-directory deletion are performed
exactly when the run reached the database-migration phase and `upgradeDatabases` failed;
a failure in any other phase triggers neither deletion. -/
theorem rollback_exactly_on_database_migration_failure
    (env : RunEnv) (source : optionsV1) (target : optionsV2) :
    (runUpgradeE env source target).2.2.2.removeBoltCalled =
      dbMigrationFailed env source target ∧
    (runUpgradeE env source target).2.2.2.removeEngineCalled =
      dbMigrationFailed env source target :=
  ⟨runUpgradeE_removeBolt env source target, runUpgradeE_removeEngine env source target⟩

/-- C3: `validatePaths` returns exactly the first violated check of the spec's ordered
check list (fail-fast in the specified order), and every error message embeds the
offending path. -/
theorem validatePaths_ordered_fail_fast_checks :
    (∀ (fs : FS) (tr : String → String) (s : optionsV1) (t : optionsV2),
      (validatePaths fs tr s t).1 = specValidate fs tr s t) ∧
    (∀ v : VErr, v.message = v.msgPre ++ v.path ++ v.msgSuf) :=
  ⟨validatePaths_eq_specValidate, fun v => by cases v <;> rfl⟩

/-- C4 counterexample: the empty bind address does not begin with a colon, yet the
derived host is not the bind address taken verbatim — it is defaulted. -/
theorem dbURLHost_empty_bind_not_verbatim :
    strStartsWith cfgEmptyBind.Http.BindAddress ":" = false ∧
    configV1.dbURLHost cfgEmptyBind ≠ cfgEmptyBind.Http.BindAddress := by
  decide

/-- C4 (amended): the host is localhost plus the bind address when the address begins
with a colon, the bind address verbatim for any other nonempty address, and
localhost:8086 for the empty address (which is first defaulted to :8086). -/
theorem dbURLHost_localhost_for_port_only_else_verbatim (c : configV1) :
    (strStartsWith c.Http.BindAddress ":" = true →
      configV1.dbURLHost c = "localhost" ++ c.Http.BindAddress) ∧
    (c.Http.BindAddress ≠ "" → strStartsWith c.Http.BindAddress ":" = false →
      configV1.dbURLHost c = c.Http.BindAddress) ∧
    (c.Http.BindAddress = "" → configV1.dbURLHost c = "localhost:8086") := by
  refine ⟨?_, ?_, ?_⟩
  · intro h
    by_cases hb : c.Http.BindAddress = ""
    · rw [hb] at h
      exact absurd h (by decide)
    · simp [configV1.dbURLHost, hb, h]
  · intro hne hns
    simp [configV1.dbURLHost, hne, hns]
  · intro hb
    simp only [configV1.dbURLHost, hb]
    decide

/-- C4 witness: the amended statement evaluated on a port-only and on a host-carrying
bind address. -/
theorem dbURLHost_localhost_for_port_only_else_verbatim_witness :
    (strStartsWith cfgPortOnly.Http.BindAddress ":" = true ∧
      configV1.dbURLHost cfgPortOnly = "localhost" ++ cfgPortOnly.Http.BindAddress) ∧
    (cfgHostAddr.Http.BindAddress ≠ "" ∧ strStartsWith cfgHostAddr.Http.BindAddress ":" = false ∧
      configV1.dbURLHost cfgHostAddr = cfgHostAddr.Http.BindAddress) :=
  ⟨⟨by decide, (dbURLHost_localhost_for_port_only_else_verbatim cfgPortOnly).1 (by decide)⟩,
    ⟨by decide, by decide,
      (dbURLHost_localhost_for_port_only_else_verbatim cfgHostAddr).2.1 (by decide) (by decide)⟩⟩

/-- C5 counterexample: on a filesystem where validation succeeds, `validatePaths`
returns mutated source options (populateDirs overwrote the directory fields). -/
theorem validatePaths_mutates_source_options :
    (validatePaths fsGood trGood srcGood tgtGood).1 = none ∧
    (validatePaths fsGood trGood srcGood tgtGood).2.1 ≠ srcGood := by
  decide

/-- C5 (amended): `validatePaths` reads the filesystem only (the embedding passes it a
read-only snapshot, as the code only calls Stat and ReadDir), never changes the target
options, and changes the source options exactly by `populateDirs` — and does so exactly
when the source root exists and is a directory. -/
theorem validatePaths_frame (fs : FS) (tr : String → String) (s : optionsV1) (t : optionsV2) :
    (validatePaths fs tr s t).2.2 = t ∧
    (validatePaths fs tr s t).2.1 =
      (if statIsDir fs s.dbDir = true then s.populateDirs else s) :=
  ⟨validatePaths_target fs tr s t, validatePaths_source fs tr s t⟩

/-- C6 counterexample: a successful run returns target options whose token field was
overwritten after validation completed (the validated target still carried the empty
token). -/
theorem options_written_after_validation :
    (runUpgradeE envGood srcGood tgtGood).1 = Except.ok () ∧
    (validatePaths envGood.fs envGood.translateV1ConfigPath srcGood tgtGood).2.2.token = "" ∧
    (runUpgradeE envGood srcGood tgtGood).2.2.1.token = "TOK" :=
  ⟨rfl, rfl, rfl⟩

/-- C6 (amended): after validation the options are written in exactly two places — the
source directories and URL are overwritten from the translated config when a config file
is present, and the target org/user/token fields are overwritten from the onboarding
result once setupAdmin succeeds; all other fields keep their validated values. -/
theorem options_writes_localized_to_config_and_onboarding
    (env : RunEnv) (source : optionsV1) (target : optionsV2) :
    (runUpgradeE env source target).2.1 =
      (if (env.logLevelValid && exOk env.logBuild) = true then
        (if validateOk env source target = true then postConfigSource env source target
         else postValidateSource env source target)
       else source) ∧
    (runUpgradeE env source target).2.2.1 =
      (if reachedSetupAdmin env source target = true then postOnboardTarget env target
       else target) :=
  ⟨runUpgradeE_finalSource env source target, runUpgradeE_finalTarget env source target⟩

/-- C7: the non-fatal warning is recorded exactly when the run succeeded with at least
one migrated user and 1.x auth disabled; and the run returns success exactly when every
phase succeeded. -/
theorem warning_iff_users_migrated_without_v1_auth
    (env : RunEnv) (source : optionsV1) (target : optionsV2) :
    (runUpgradeE env source target).2.2.2.warnedUnenforcedAuth =
      (runSucceeded env source target && decide (0 < usersUpgradedCount env) &&
        !runAuthEnabled env source target) ∧
    ((runUpgradeE env source target).1 = Except.ok ()) =
      (runSucceeded env source target = true) :=
  ⟨runUpgradeE_warned env source target, runUpgradeE_ok env source target⟩

/-- C8: when the run reaches the database-migration phase and it fails, both deletions
are attempted, a failed deletion is logged exactly when its removal failed, and the
error returned to the caller is the original database-migration error regardless. -/
theorem rollback_best_effort_keeps_original_error
    (env : RunEnv) (source : optionsV1) (target : optionsV2) (e : String)
    (hdb : env.upgradeDatabases = Except.error e)
    (hreach : reachedDatabasePhase env source target = true) :
    (runUpgradeE env source target).1 = Except.error e ∧
    (runUpgradeE env source target).2.2.2.removeBoltCalled = true ∧
    (runUpgradeE env source target).2.2.2.removeEngineCalled = true ∧
    (runUpgradeE env source target).2.2.2.loggedRemoveBoltError = env.removeBolt.isSome ∧
    (runUpgradeE env source target).2.2.2.loggedRemoveEngineError =
      env.removeAllEngine.isSome := by
  have hfail : dbMigrationFailed env source target = true := by
    simp [dbMigrationFailed, hreach, hdb, exOk]
  refine ⟨runUpgradeE_dbError env source target e hdb hreach, ?_, ?_, ?_, ?_⟩
  · rw [runUpgradeE_removeBolt env source target, hfail]
  · rw [runUpgradeE_removeEngine env source target, hfail]
  · rw [runUpgradeE_loggedBolt env source target, hfail]
    simp
  · rw [runUpgradeE_loggedEngine env source target, hfail]
    simp

/-- C8 witness: the best-effort rollback statement evaluated on a run whose database
migration fails and whose bolt-file deletion also fails. -/
theorem rollback_best_effort_keeps_original_error_witness :
    envDbFail.upgradeDatabases = Except.error "db migration failed" ∧
    reachedDatabasePhase envDbFail srcGood tgtGood = true ∧
    ((runUpgradeE envDbFail srcGood tgtGood).1 = Except.error "db migration failed" ∧
      (runUpgradeE envDbFail srcGood tgtGood).2.2.2.removeBoltCalled = true ∧
      (runUpgradeE envDbFail srcGood tgtGood).2.2.2.removeEngineCalled = true ∧
      (runUpgradeE envDbFail srcGood tgtGood).2.2.2.loggedRemoveBoltError =
        envDbFail.removeBolt.isSome ∧
      (runUpgradeE envDbFail srcGood tgtGood).2.2.2.loggedRemoveEngineError =
        envDbFail.removeAllEngine.isSome) :=
  ⟨rfl, by decide,
    rollback_best_effort_keeps_original_error envDbFail srcGood tgtGood
      "db migration failed" rfl (by decide)⟩

/-- C9: the derived URL scheme is https exactly when https-enabled is set, http
otherwise, and `dbURL` is that scheme joined to the derived host. -/
theorem dbURL_scheme_https_iff_enabled (c : configV1) :
    ((configV1.dbURLScheme c == "https") = c.Http.HttpsEnabled) ∧
    ((configV1.dbURLScheme c == "http") = !c.Http.HttpsEnabled) ∧
    configV1.dbURL c = configV1.dbURLScheme c ++ "://" ++ configV1.dbURLHost c := by
  obtain ⟨cm, cd, ba, he, ae⟩ := c
  cases he <;> exact ⟨rfl, rfl, rfl⟩

/-- C10: an empty 1.x http bind address is replaced by the default :8086, so the derived
host is localhost:8086 rather than the empty address. -/
theorem dbURLHost_defaults_empty_bind_to_8086 (c : configV1)
    (h : c.Http.BindAddress = "") :
    configV1.dbURLHost c = "localhost:8086" := by
  simp only [configV1.dbURLHost, h]
  decide

/-- C10 witness: the default-host statement evaluated on a config with empty bind
address. -/
theorem dbURLHost_defaults_empty_bind_to_8086_witness :
    cfgEmptyBind.Http.BindAddress = "" ∧
    configV1.dbURLHost cfgEmptyBind = "localhost:8086" :=
  ⟨rfl, dbURLHost_defaults_empty_bind_to_8086 cfgEmptyBind rfl⟩
